import Mathlib

/-!
Shallow embedding of `docker_log_redirect.py` (IncognitoCoding/docker_log_redirect).

The program supervises one watcher thread per configured docker container.
The parts embedded here are the ones the claims are about:

* `get_docker_log` (lines 36-66): per line, `readline().decode('utf-8').strip()`
  is modelled by `utf8DecodeStrict` (Python's strict UTF-8 decode, `none` on an
  invalid byte sequence, which Python raises as `UnicodeDecodeError`) followed
  by `pyStrip` (Python `str.strip()` with no argument: whitespace removed from
  BOTH ends).
* `create_docker_log_threads` (lines 69-139): the supervision pass.  The
  liveness check is the Python substring test
  `thread_name in str(threading.enumerate())` (lines 105 and 124), modelled by
  `strIn` over the rendering `enumStr` of the list of live thread names
  (each thread rendered as `<Thread(name, started 123)>` inside `[...]`,
  matching Python's `repr` of a started `Thread` up to the numeric ident).
* `populate_startup_variables` (lines 213-414): only the root-key validation
  (lines 244-251) is needed by the claims; it is `rootKeyCheck`.
* `main` (lines 417-504): `populate_startup_variables()` is called OUTSIDE the
  `try` block; the `try` covers only `create_docker_log_threads` and the
  alerting loop, and its `except ValueError` branch logs, optionally emails
  (when `alert_program_errors` and `email_alerts` are both true) and calls
  `exit()`.

Threads are modelled by explicit state passing: the registry is the list of
names of live threads, and each container carries a `SpawnOutcome` oracle
describing what `start_function_thread` / the spawned thread does (raise,
stay alive, or die before the post-spawn check).  Exceptions are modelled by
an explicit error field.
-/

/-- Python `needle in hay` on strings: `needle` occurs as a contiguous
substring of `hay` (char-list form). -/
def substrB (needle : List Char) : List Char → Bool
  | [] => needle.isEmpty
  | c :: rest => needle.isPrefixOf (c :: rest) || substrB needle rest

/-- Python `needle in hay` on `String`s. -/
def strIn (needle hay : String) : Bool :=
  substrB needle.data hay.data

/-- Line 97: `container_name.replace(" ", "_")` — every space becomes an
underscore. -/
def pyReplaceSpace (s : String) : String :=
  ⟨s.data.map fun c => if c = ' ' then '_' else c⟩

/-- Line 100: `thread_name = f'{container_name}_thread'` applied to the
space-normalized container name. -/
def threadNameOf (container_name : String) : String :=
  pyReplaceSpace container_name ++ "_thread"

/-- Python `repr` of a started `Thread` named `n`:  `<Thread(n, started 123)>`
(the numeric ident is fixed; only the fact that the name appears intact
between non-name decorations matters to the substring check). -/
def threadRepr (n : String) : String :=
  "<Thread(" ++ n ++ ", started 123)>"

/-- Body of Python `str(threading.enumerate())`: the thread reprs joined by
`", "`. -/
def enumBody : List String → String
  | [] => ""
  | n :: rest => threadRepr n ++ (if rest.isEmpty then "" else ", ") ++ enumBody rest

/-- Python `str(threading.enumerate())` for live-thread names `reg`:
`"[" ++ reprs ++ "]"`.  Lines 105 and 124 test thread names against this
string with the substring operator `in`. -/
def enumStr (reg : List String) : String :=
  "[" ++ enumBody reg ++ "]"

/-- Oracle for what happens when the pass reaches `start_function_thread`
(line 113) for one container: the call raises (carrying its message), or the
spawned thread is alive at the post-spawn check (line 124), or it has already
died by then (e.g. `docker logs` could not attach and `get_docker_log`
raised inside the thread). -/
inductive SpawnOutcome
  | raises (msg : String)
  | aliveAfter
  | deadAfter
deriving DecidableEq, Repr

/-- The `'Status'` value of a tracker entry: `'Started'` or `'Failed'`
(lines 128 and 134). -/
inductive TStatus
  | started
  | failed
deriving DecidableEq, Repr

/-- One tracker dictionary `{'Status': ..., 'container_name': ...}`.  Note the
`container_name` stored is the one reassigned on line 97, i.e. the
space-normalized name. -/
structure ResultEntry where
  status : TStatus
  container_name : String
deriving DecidableEq, Repr

/-- Result of one run of `create_docker_log_threads`: the final list of live
thread names, the `thread_start_tracker` list (each entry is appended as a
singleton list, lines 128/134), and `some msg` when the pass aborted by
raising `ValueError` (lines 115-118 re-raise; nothing in the pass catches). -/
structure PassOut where
  reg : List String
  results : List (List ResultEntry)
  err : Option String
deriving DecidableEq, Repr

/-- Lines 86-139 of `create_docker_log_threads`, as a fold over the configured
containers threading the live-thread list `reg`.  For each container: compute
the normalized name and thread name; if the thread name occurs in
`str(threading.enumerate())` (line 105's `not in` is false) only log and move
on; otherwise attempt the spawn.  A raise from `start_function_thread` is
wrapped and re-raised (lines 115-118), aborting the whole pass.  Otherwise
the liveness re-check on line 124 decides `Started` (thread found, the alive
thread having been added to the enumeration) or `Failed` (not found), and the
loop continues. -/
def create_docker_log_threads (reg : List String) :
    List (String × SpawnOutcome) → PassOut
  | [] => ⟨reg, [], none⟩
  | (container_name, outcome) :: rest =>
    let name := pyReplaceSpace container_name
    let thread_name := name ++ "_thread"
    if strIn thread_name (enumStr reg) then
      create_docker_log_threads reg rest
    else
      match outcome with
      | .raises msg => ⟨reg, [], some msg⟩
      | .aliveAfter =>
        let reg' := reg ++ [thread_name]
        if strIn thread_name (enumStr reg') then
          let out := create_docker_log_threads reg' rest
          ⟨out.reg, [⟨.started, name⟩] :: out.results, out.err⟩
        else
          let out := create_docker_log_threads reg' rest
          ⟨out.reg, [⟨.failed, name⟩] :: out.results, out.err⟩
      | .deadAfter =>
        if strIn thread_name (enumStr reg) then
          let out := create_docker_log_threads reg rest
          ⟨out.reg, [⟨.started, name⟩] :: out.results, out.err⟩
        else
          let out := create_docker_log_threads reg rest
          ⟨out.reg, [⟨.failed, name⟩] :: out.results, out.err⟩

example :
    create_docker_log_threads [] [("My Software1", .aliveAfter)] =
      ⟨["My_Software1_thread"], [[⟨.started, "My_Software1"⟩]], none⟩ := by decide

example :
    create_docker_log_threads ["My_Software1_thread"] [("My Software1", .aliveAfter)] =
      ⟨["My_Software1_thread"], [], none⟩ := by decide

/-! ### The Stream Reader's per-line transform (`get_docker_log`, line 61) -/

/-- A UTF-8 continuation byte: `0x80..0xBF`. -/
def utf8Cont (b : Nat) : Bool :=
  0x80 ≤ b && b < 0xC0

/-- Python `bytes.decode('utf-8')` with the default strict error handler:
decodes a byte list to a code-point list, or `none` where Python raises
`UnicodeDecodeError` (stray continuation bytes, truncated sequences, overlong
encodings, surrogates, code points above `0x10FFFF`). -/
def utf8DecodeStrict : List Nat → Option (List Nat)
  | [] => some []
  | b :: rest =>
    if b < 0x80 then
      (utf8DecodeStrict rest).map fun cs => b :: cs
    else if b < 0xC2 then
      none
    else if b < 0xE0 then
      match rest with
      | b1 :: rest1 =>
        if utf8Cont b1 then
          (utf8DecodeStrict rest1).map fun cs =>
            ((b - 0xC0) * 0x40 + (b1 - 0x80)) :: cs
        else none
      | [] => none
    else if b < 0xF0 then
      match rest with
      | b1 :: b2 :: rest2 =>
        if utf8Cont b1 && utf8Cont b2 then
          let cp := (b - 0xE0) * 0x1000 + (b1 - 0x80) * 0x40 + (b2 - 0x80)
          if cp < 0x800 || (0xD800 ≤ cp && cp ≤ 0xDFFF) then none
          else (utf8DecodeStrict rest2).map fun cs => cp :: cs
        else none
      | _ => none
    else if b < 0xF5 then
      match rest with
      | b1 :: b2 :: b3 :: rest3 =>
        if utf8Cont b1 && utf8Cont b2 && utf8Cont b3 then
          let cp := (b - 0xF0) * 0x40000 + (b1 - 0x80) * 0x1000 +
            (b2 - 0x80) * 0x40 + (b3 - 0x80)
          if cp < 0x10000 || 0x10FFFF < cp then none
          else (utf8DecodeStrict rest3).map fun cs => cp :: cs
        else none
      | _ => none
    else
      none

/-- Python `str.isspace()` for a single code point (the set `str.strip()`
removes). -/
def isPySpace (c : Nat) : Bool :=
  (0x09 ≤ c && c ≤ 0x0D) || c = 0x20 || (0x1C ≤ c && c ≤ 0x1F) ||
    c = 0x85 || c = 0xA0 || c = 0x1680 || (0x2000 ≤ c && c ≤ 0x200A) ||
    c = 0x2028 || c = 0x2029 || c = 0x202F || c = 0x205F || c = 0x3000

/-- Python `str.strip()` with no argument: whitespace removed from BOTH the
leading and the trailing end. -/
def pyStrip (cs : List Nat) : List Nat :=
  (((cs.dropWhile isPySpace).reverse).dropWhile isPySpace).reverse

/-- The spec's words for the per-line trim ("trims trailing whitespace"):
remove whitespace from the trailing end only, leaving leading whitespace
unchanged.  Kept separate from `pyStrip` (the source's behavior) for
comparison. -/
def trimTrailingSpec (cs : List Nat) : List Nat :=
  ((cs.reverse).dropWhile isPySpace).reverse

/-- Line 61 of `get_docker_log`, per line read from the stream:
`output.stdout.readline().decode('utf-8').strip()`, the result being handed
to `container_logger.info` (the Line Sink).  A `UnicodeDecodeError` from the
strict decode is an exception; it is caught by the `except Exception` on
line 65 and re-raised as `ValueError`, killing the reader. -/
def get_docker_log_line (bytes : List Nat) : Except String (List Nat) :=
  match utf8DecodeStrict bytes with
  | none => .error "UnicodeDecodeError"
  | some cs => .ok (pyStrip cs)

example : get_docker_log_line [0x68, 0x69, 0x0A] = .ok [0x68, 0x69] := by rfl
example : get_docker_log_line [0xFF] = .error "UnicodeDecodeError" := by rfl
example : utf8DecodeStrict [0xC3, 0xA9] = some [0xE9] := by decide
example : utf8DecodeStrict [0xE2, 0x82, 0xAC] = some [0x20AC] := by decide
example : utf8DecodeStrict [0xF0, 0x9F, 0x98, 0x80] = some [0x1F600] := by decide
example : utf8DecodeStrict [0xED, 0xA0, 0x80] = none := by decide
example : utf8DecodeStrict [0xC0, 0xAF] = none := by decide
example : utf8DecodeStrict [0xC3] = none := by decide

/-! ### Configuration validation and `main` -/

/-- The startup variables `main` reads from the populated dictionary, reduced
to the fields the embedded control flow depends on; the configured containers
carry their spawn oracle. -/
structure StartupVars where
  email_alerts : Bool
  alert_program_errors : Bool
  containers : List (String × SpawnOutcome)
deriving DecidableEq, Repr

/-- Lines 244-251 of `populate_startup_variables`: the four root-key checks,
in source order, each raising `ValueError` when its key is absent from the
read YAML configuration (represented by its list of top-level keys).  The
message for a missing `docker_container` really says `'software'` in the
source. -/
def rootKeyCheck (keys : List String) : Except String Unit :=
  if !(keys.contains "general") then
    .error "The 'general' key is missing from the YAML file"
  else if !(keys.contains "docker_container") then
    .error "The 'software' key is missing from the YAML file"
  else if !(keys.contains "email") then
    .error "The 'email' key is missing from the YAML file"
  else if !(keys.contains "logging") then
    .error "The 'logging' key is missing from the YAML file"
  else
    .ok ()

/-- `populate_startup_variables` as far as the claims need it: the root-key
validation runs first; everything after it (path handling, per-field
validation, logger construction) is abstracted as `rest`, the startup
variables it would produce when it succeeds. -/
def populate_startup_variables (keys : List String)
    (rest : Except String StartupVars) : Except String StartupVars :=
  match rootKeyCheck keys with
  | .error e => .error e
  | .ok _ => rest

/-- How one `main()` call ends.  `uncaughtCrash`: an exception escaped `main`
(nothing inside `main` caught it, so no `root_logger.error` call and no alert
attempt happened on its behalf).  `handledExit`: the `except ValueError`
branch on lines 469-504 ran — it always logs the error (line 481) and
attempts the alert email exactly when `alert_program_errors == True and
email_alerts == True` (line 484) — and then calls `exit()`.
`sleepAndRepeat`: the pass finished and `main` falls through to the sleep
notice (line 506). -/
inductive MainOutcome
  | uncaughtCrash (msg : String)
  | handledExit (loggedError : Bool) (alertAttempted : Bool)
  | sleepAndRepeat
deriving DecidableEq, Repr

/-- `main` (lines 417-506) given the result of `populate_startup_variables`
(called on line 421, OUTSIDE the `try` that starts on line 436) and the
current live-thread list.  Returns the outcome together with the live-thread
list afterwards (which records whether any watcher was spawned). -/
def mainModel (cfg : Except String StartupVars) (reg : List String) :
    MainOutcome × List String :=
  match cfg with
  | .error e => (.uncaughtCrash e, reg)
  | .ok sv =>
    let out := create_docker_log_threads reg sv.containers
    match out.err with
    | some _ =>
      (.handledExit true (sv.alert_program_errors && sv.email_alerts), out.reg)
    | none => (.sleepAndRepeat, out.reg)

example :
    mainModel (.error "boom") [] = (.uncaughtCrash "boom", []) := by decide

/-! ### Helper lemmas about the substring check and the registry rendering -/

theorem substrB_iff (n : List Char) : ∀ h : List Char, substrB n h = true ↔ n <:+: h := by
  intro h
  induction h with
  | nil =>
    simp [substrB, List.isEmpty_iff, List.infix_nil]
  | cons c t ih =>
    simp only [substrB, Bool.or_eq_true, List.isPrefixOf_iff_prefix, ih,
      List.infix_cons_iff]

theorem strIn_iff (n h : String) : strIn n h = true ↔ n.data <:+: h.data :=
  substrB_iff n.data h.data

theorem infix_append_left {a b : List Char} (c : List Char) (h : a <:+: b) :
    a <:+: b ++ c := by
  obtain ⟨s, t, rfl⟩ := h
  exact ⟨s, t ++ c, by simp⟩

theorem infix_append_right {a c : List Char} (b : List Char) (h : a <:+: c) :
    a <:+: b ++ c := by
  obtain ⟨s, t, rfl⟩ := h
  exact ⟨b ++ s, t, by simp⟩

/-- A thread name occurs (as a substring) in its own `Thread` repr. -/
theorem infix_threadRepr (n : String) : n.data <:+: (threadRepr n).data := by
  unfold threadRepr
  simp only [String.data_append]
  exact ⟨"<Thread(".data, ", started 123)>".data, rfl⟩

/-- A name occurring in the live-thread list occurs (as a substring) in the
rendering of the enumeration body. -/
theorem mem_infix_enumBody {n : String} : ∀ {reg : List String}, n ∈ reg →
    n.data <:+: (enumBody reg).data := by
  intro reg hm
  induction reg with
  | nil => cases hm
  | cons m rest ih =>
    unfold enumBody
    simp only [String.data_append]
    rcases List.mem_cons.mp hm with h | h
    · subst h
      exact infix_append_left _ (infix_append_left _ (infix_threadRepr n))
    · exact infix_append_right _ (ih h)

/-- A name occurring in the live-thread list is reported active by the
`thread_name in str(threading.enumerate())` check. -/
theorem strIn_enumStr_of_mem {n : String} {reg : List String} (hm : n ∈ reg) :
    strIn n (enumStr reg) = true := by
  rw [strIn_iff]
  unfold enumStr
  simp only [String.data_append]
  exact infix_append_left _ (infix_append_right _ (mem_infix_enumBody hm))

/-- Contrapositive: a name the check reports inactive is not in the
live-thread list. -/
theorem not_mem_of_strIn_enumStr_false {n : String} {reg : List String}
    (h : strIn n (enumStr reg) = false) : n ∉ reg := fun hm => by
  rw [strIn_enumStr_of_mem hm] at h
  cases h

/-! ### Step lemmas for `create_docker_log_threads` -/

theorem create_step_skip {reg : List String} {n : String} {b : SpawnOutcome}
    {rest : List (String × SpawnOutcome)}
    (h : strIn (threadNameOf n) (enumStr reg) = true) :
    create_docker_log_threads reg ((n, b) :: rest) =
      create_docker_log_threads reg rest := by
  simp only [threadNameOf] at h
  simp only [create_docker_log_threads, h, if_true]

theorem create_step_raises {reg : List String} {n msg : String}
    {rest : List (String × SpawnOutcome)}
    (h : strIn (threadNameOf n) (enumStr reg) = false) :
    create_docker_log_threads reg ((n, .raises msg) :: rest) =
      ⟨reg, [], some msg⟩ := by
  simp only [threadNameOf] at h
  simp only [create_docker_log_threads, h]
  simp

theorem create_step_alive {reg : List String} {n : String}
    {rest : List (String × SpawnOutcome)}
    (h : strIn (threadNameOf n) (enumStr reg) = false) :
    create_docker_log_threads reg ((n, .aliveAfter) :: rest) =
      { reg := (create_docker_log_threads (reg ++ [threadNameOf n]) rest).reg,
        results := [⟨.started, pyReplaceSpace n⟩] ::
          (create_docker_log_threads (reg ++ [threadNameOf n]) rest).results,
        err := (create_docker_log_threads (reg ++ [threadNameOf n]) rest).err } := by
  have hpost : strIn (threadNameOf n) (enumStr (reg ++ [threadNameOf n])) = true :=
    strIn_enumStr_of_mem (by simp)
  simp only [threadNameOf] at h hpost
  simp only [create_docker_log_threads, h, hpost]
  simp [threadNameOf]

theorem create_step_dead {reg : List String} {n : String}
    {rest : List (String × SpawnOutcome)}
    (h : strIn (threadNameOf n) (enumStr reg) = false) :
    create_docker_log_threads reg ((n, .deadAfter) :: rest) =
      { reg := (create_docker_log_threads reg rest).reg,
        results := [⟨.failed, pyReplaceSpace n⟩] ::
          (create_docker_log_threads reg rest).results,
        err := (create_docker_log_threads reg rest).err } := by
  simp only [threadNameOf] at h
  simp only [create_docker_log_threads, h]
  simp

/-- Stepwise freshness of a configured container list with respect to a
starting live-thread list: each container's derived thread name is not found
by the substring check against the rendering of the live threads accumulated
so far (the starting ones plus the thread names of the earlier containers in
the list). -/
def freshRun (reg : List String) : List (String × SpawnOutcome) → Bool
  | [] => true
  | (n, _) :: rest =>
    !(strIn (threadNameOf n) (enumStr reg)) &&
      freshRun (reg ++ [threadNameOf n]) rest

/-- A fresh, all-spawns-alive run: every container spawns, is seen alive, and
contributes one `Started` entry under its normalized name, in order; the
live-thread list gains the derived thread names in order. -/
theorem create_fresh_alive : ∀ (cs : List (String × SpawnOutcome)) (reg : List String),
    freshRun reg cs = true → (∀ c ∈ cs, c.2 = SpawnOutcome.aliveAfter) →
    create_docker_log_threads reg cs =
      ⟨reg ++ cs.map (fun c => threadNameOf c.1),
       cs.map (fun c => [⟨.started, pyReplaceSpace c.1⟩]), none⟩ := by
  intro cs
  induction cs with
  | nil =>
    intro reg _ _
    simp [create_docker_log_threads]
  | cons c rest ih =>
    intro reg hfresh halive
    obtain ⟨n, b⟩ := c
    have hb : b = SpawnOutcome.aliveAfter := halive (n, b) (List.mem_cons_self _ _)
    subst hb
    simp only [freshRun, Bool.and_eq_true, Bool.not_eq_true'] at hfresh
    obtain ⟨h1, h2⟩ := hfresh
    rw [create_step_alive h1,
      ih _ h2 (fun c hc => halive c (List.mem_cons_of_mem _ hc))]
    simp

/-- When the check reports every container's thread name active, the pass
only logs and returns an empty tracker, leaving the live threads as they
were. -/
theorem create_all_active : ∀ (cs : List (String × SpawnOutcome)) (reg : List String),
    (∀ c ∈ cs, strIn (threadNameOf c.1) (enumStr reg) = true) →
    create_docker_log_threads reg cs = ⟨reg, [], none⟩ := by
  intro cs
  induction cs with
  | nil =>
    intro reg _
    rfl
  | cons c rest ih =>
    intro reg hact
    obtain ⟨n, b⟩ := c
    rw [create_step_skip (hact (n, b) (List.mem_cons_self _ _))]
    exact ih reg (fun c hc => hact c (List.mem_cons_of_mem _ hc))

/-- The pass preserves distinctness of the live thread names: spawning is
guarded by the substring check, and a name in the list is always found by
that check. -/
theorem create_nodup : ∀ (cs : List (String × SpawnOutcome)) (reg : List String),
    reg.Nodup → (create_docker_log_threads reg cs).reg.Nodup := by
  intro cs
  induction cs with
  | nil =>
    intro reg h
    exact h
  | cons c rest ih =>
    intro reg h
    obtain ⟨n, b⟩ := c
    cases hchk : strIn (threadNameOf n) (enumStr reg) with
    | true =>
      rw [create_step_skip hchk]
      exact ih reg h
    | false =>
      have hnm : threadNameOf n ∉ reg := not_mem_of_strIn_enumStr_false hchk
      cases b with
      | raises msg =>
        rw [create_step_raises hchk]
        exact h
      | aliveAfter =>
        rw [create_step_alive hchk]
        exact ih _ (by simp [List.nodup_append, h, hnm])
      | deadAfter =>
        rw [create_step_dead hchk]
        exact ih reg h

/-- `true` on the `error` constructor of the modelled configuration load. -/
def isErrorB : Except String StartupVars → Bool
  | .error _ => true
  | .ok _ => false

/-- `true` when a `main` call ended with an exception escaping it (no logging
or alerting on its way out). -/
def isUncaughtCrashB : MainOutcome → Bool
  | .uncaughtCrash _ => true
  | _ => false

/-! ### Claims -/

/-- C1 (counterexample to the claim as stated): a raise from
`start_function_thread` for the first container is NOT caught by the pass —
the `except` clauses on lines 115-118 re-raise — so the pass aborts with no
`Failed` entry for that container and no entry at all for the second
container, instead of the per-container `Failed`-and-continue the claim
describes. -/
theorem claim_C1_counterexample :
    create_docker_log_threads []
        [("MySoftware1", .raises "attach failed"), ("MySoftware2", .aliveAfter)] =
      ⟨[], [], some "attach failed"⟩ ∧
    (⟨[], [], some "attach failed"⟩ : PassOut) ≠
      ⟨["MySoftware2_thread"],
       [[⟨.failed, "MySoftware1"⟩], [⟨.started, "MySoftware2"⟩]], none⟩ := by
  exact ⟨by decide, by decide⟩

/-- C1 (amended): when the substring check reports a container's thread name
inactive, a raise from `start_function_thread` propagates and aborts the
whole pass (live threads unchanged, empty tracker, error recorded), whereas
a spawn that returns but whose thread is not alive at the post-spawn check
yields a `Failed` entry and the pass continues with the remaining
containers. -/
theorem claim_C1_amended (reg : List String) (n msg : String)
    (rest : List (String × SpawnOutcome))
    (h : strIn (threadNameOf n) (enumStr reg) = false) :
    create_docker_log_threads reg ((n, .raises msg) :: rest) =
      ⟨reg, [], some msg⟩ ∧
    create_docker_log_threads reg ((n, .deadAfter) :: rest) =
      ⟨(create_docker_log_threads reg rest).reg,
       [⟨.failed, pyReplaceSpace n⟩] :: (create_docker_log_threads reg rest).results,
       (create_docker_log_threads reg rest).err⟩ :=
  ⟨create_step_raises h, create_step_dead h⟩

/-- Witness for C1's amended theorem at a concrete input. -/
theorem claim_C1_witness :
    strIn (threadNameOf "A") (enumStr []) = false ∧
    create_docker_log_threads [] [("A", .raises "boom"), ("B", .aliveAfter)] =
      ⟨[], [], some "boom"⟩ ∧
    create_docker_log_threads [] [("A", .deadAfter), ("B", .aliveAfter)] =
      ⟨(create_docker_log_threads [] [("B", .aliveAfter)]).reg,
       [⟨.failed, "A"⟩] :: (create_docker_log_threads [] [("B", .aliveAfter)]).results,
       (create_docker_log_threads [] [("B", .aliveAfter)]).err⟩ := by
  have h : strIn (threadNameOf "A") (enumStr []) = false := by decide
  have hmain := claim_C1_amended [] "A" "boom" [("B", .aliveAfter)] h
  exact ⟨h, hmain.1, hmain.2⟩

/-- C2 (counterexample to the claim as stated): two configured containers
whose names differ only in a space versus an underscore derive the same
thread name; after the first spawns, the second is reported active and gets
no entry, so the pass does NOT produce one `Started` entry per configured
container even though no spawn failed. -/
theorem claim_C2_counterexample :
    create_docker_log_threads [] [("a b", .aliveAfter), ("a_b", .aliveAfter)] =
      ⟨["a_b_thread"], [[⟨.started, "a_b"⟩]], none⟩ ∧
    ([[(⟨.started, "a_b"⟩ : ResultEntry)]]).length ≠
      ([("a b", SpawnOutcome.aliveAfter), ("a_b", SpawnOutcome.aliveAfter)]).length := by
  exact ⟨by decide, by decide⟩

/-- C2 (amended): when additionally no container's derived thread name is
found by the substring check against the live threads accumulated so far
(`freshRun`), a pass in which every spawned watcher comes up alive produces
exactly one `Started` entry per configured container, in configured order,
each carrying the space-normalized container name. -/
theorem claim_C2_amended (reg : List String) (cs : List (String × SpawnOutcome))
    (hfresh : freshRun reg cs = true)
    (halive : ∀ c ∈ cs, c.2 = SpawnOutcome.aliveAfter) :
    create_docker_log_threads reg cs =
      ⟨reg ++ cs.map (fun c => threadNameOf c.1),
       cs.map (fun c => [⟨.started, pyReplaceSpace c.1⟩]), none⟩ :=
  create_fresh_alive cs reg hfresh halive

/-- Witness for C2's amended theorem at a concrete input. -/
theorem claim_C2_witness :
    freshRun [] [("My Software1", .aliveAfter), ("MySoftware2", .aliveAfter)] = true ∧
    create_docker_log_threads []
        [("My Software1", .aliveAfter), ("MySoftware2", .aliveAfter)] =
      ⟨["My_Software1_thread", "MySoftware2_thread"],
       [[⟨.started, "My_Software1"⟩], [⟨.started, "MySoftware2"⟩]], none⟩ := by
  have h : freshRun [] [("My Software1", .aliveAfter), ("MySoftware2", .aliveAfter)] =
      true := by decide
  have hmain := claim_C2_amended []
    [("My Software1", .aliveAfter), ("MySoftware2", .aliveAfter)] h
    (by intro c hc; fin_cases hc <;> rfl)
  simpa using ⟨h, hmain⟩

/-- C3: a container whose derived thread name the check reports active
contributes no tracker entry (neither `Started` nor `Failed`) and the pass
simply moves on to the rest; consequently a pass in which every container is
reported active returns an empty tracker with the live threads unchanged,
and in particular re-running a pass immediately after a fresh all-alive pass
(all watchers still alive) yields an empty tracker. -/
theorem claim_C3 :
    (∀ (reg : List String) (n : String) (b : SpawnOutcome)
        (rest : List (String × SpawnOutcome)),
      strIn (threadNameOf n) (enumStr reg) = true →
      create_docker_log_threads reg ((n, b) :: rest) =
        create_docker_log_threads reg rest) ∧
    (∀ (reg : List String) (cs : List (String × SpawnOutcome)),
      (∀ c ∈ cs, strIn (threadNameOf c.1) (enumStr reg) = true) →
      create_docker_log_threads reg cs = ⟨reg, [], none⟩) ∧
    (∀ (reg : List String) (cs : List (String × SpawnOutcome)),
      freshRun reg cs = true → (∀ c ∈ cs, c.2 = SpawnOutcome.aliveAfter) →
      create_docker_log_threads (create_docker_log_threads reg cs).reg cs =
        ⟨(create_docker_log_threads reg cs).reg, [], none⟩) := by
  refine ⟨fun reg n b rest h => create_step_skip h,
    fun reg cs h => create_all_active cs reg h, fun reg cs hfresh halive => ?_⟩
  rw [create_fresh_alive cs reg hfresh halive]
  refine create_all_active cs _ fun c hc => strIn_enumStr_of_mem ?_
  exact List.mem_append_right reg (List.mem_map_of_mem _ hc)

/-- Witness for C3 at concrete inputs: a pass over an already-active
container yields no entries, and an immediate re-run of a fresh pass yields
no entries. -/
theorem claim_C3_witness :
    strIn (threadNameOf "My Software1") (enumStr ["My_Software1_thread"]) = true ∧
    create_docker_log_threads ["My_Software1_thread"]
        [("My Software1", SpawnOutcome.aliveAfter)] =
      ⟨["My_Software1_thread"], [], none⟩ ∧
    create_docker_log_threads
        (create_docker_log_threads [] [("My Software1", SpawnOutcome.aliveAfter)]).reg
        [("My Software1", SpawnOutcome.aliveAfter)] =
      ⟨(create_docker_log_threads [] [("My Software1", SpawnOutcome.aliveAfter)]).reg,
       [], none⟩ := by
  have h1 : strIn (threadNameOf "My Software1") (enumStr ["My_Software1_thread"]) =
      true := by decide
  refine ⟨h1, claim_C3.2.1 ["My_Software1_thread"]
    [("My Software1", SpawnOutcome.aliveAfter)] ?_,
    claim_C3.2.2 [] [("My Software1", SpawnOutcome.aliveAfter)] (by decide) ?_⟩
  · intro c hc
    fin_cases hc
    exact h1
  · intro c hc
    fin_cases hc
    rfl

/-- C7: the substring-check-before-spawn preserves the invariant that live
thread names are pairwise distinct — hence at most one live watcher per
derived thread name, and so at most one per container name — across any
supervision pass started from a duplicate-free set of live threads. -/
theorem claim_C7 (reg : List String) (cs : List (String × SpawnOutcome))
    (h : reg.Nodup) : (create_docker_log_threads reg cs).reg.Nodup :=
  create_nodup cs reg h

/-- Witness for C7 at a concrete input. -/
theorem claim_C7_witness :
    (["MySoftware2_thread"] : List String).Nodup ∧
    (create_docker_log_threads ["MySoftware2_thread"]
      [("MySoftware1", .aliveAfter), ("MySoftware2", .aliveAfter)]).reg.Nodup :=
  ⟨by decide, claim_C7 ["MySoftware2_thread"]
    [("MySoftware1", .aliveAfter), ("MySoftware2", .aliveAfter)] (by decide)⟩

/-- C9: the activity check on line 105 is a plain substring test against the
string rendering of the live threads, so any container whose derived thread
name occurs anywhere in that rendering is skipped with no tracker entry; in
particular `app_2_thread` (derived from container `app 2`) is a substring of
the live thread name `my_app_2_thread`, so with only `my_app_2_thread`
alive, a pass over container `app 2` spawns nothing and returns an empty
tracker. -/
theorem claim_C9 :
    (∀ (reg : List String) (n : String) (b : SpawnOutcome)
        (rest : List (String × SpawnOutcome)),
      strIn (threadNameOf n) (enumStr reg) = true →
      create_docker_log_threads reg ((n, b) :: rest) =
        create_docker_log_threads reg rest) ∧
    (threadNameOf "app 2").data <:+: (threadNameOf "my app 2").data ∧
    strIn (threadNameOf "app 2") (enumStr ["my_app_2_thread"]) = true ∧
    create_docker_log_threads ["my_app_2_thread"] [("app 2", .aliveAfter)] =
      ⟨["my_app_2_thread"], [], none⟩ :=
  ⟨fun reg n b rest h => create_step_skip h, by decide, by decide, by decide⟩

/-- Witness for C9 at a concrete input: the skip behavior applied to the
substring pair. -/
theorem claim_C9_witness :
    strIn (threadNameOf "app 2") (enumStr ["my_app_2_thread"]) = true ∧
    create_docker_log_threads ["my_app_2_thread"]
        [("app 2", SpawnOutcome.aliveAfter)] =
      create_docker_log_threads ["my_app_2_thread"] [] := by
  have h : strIn (threadNameOf "app 2") (enumStr ["my_app_2_thread"]) = true := by
    decide
  exact ⟨h, claim_C9.1 ["my_app_2_thread"] "app 2" SpawnOutcome.aliveAfter [] h⟩

/-- C10: the derived watcher name replaces every space with an underscore
and appends `_thread`; the map is not injective (`"a b"` and `"a_b"` are
distinct but derive the same name), so in one pass only the first of the two
spawns and holds a live watcher, and the `Started` entry carries the
normalized name `a_b`, not the original container name `a b`. -/
theorem claim_C10 :
    threadNameOf "a b" = "a_b_thread" ∧
    threadNameOf "a_b" = "a_b_thread" ∧
    ("a b" : String) ≠ "a_b" ∧
    create_docker_log_threads [] [("a b", .aliveAfter), ("a_b", .aliveAfter)] =
      ⟨["a_b_thread"], [[⟨.started, "a_b"⟩]], none⟩ ∧
    (⟨.started, "a_b"⟩ : ResultEntry).container_name ≠ "a b" := by
  refine ⟨by decide, by decide, by decide, by decide, by decide⟩

/-- C4 (the code at the failing input): line 61 decodes with the strict
UTF-8 decoder, so a read line containing the byte `0xFF` (or any invalid
sequence, e.g. a truncated two-byte sequence) makes the per-line step raise
`UnicodeDecodeError` instead of forwarding a substituted line to the sink;
the `except Exception` on line 65 wraps it into a `ValueError`, killing the
reader. -/
theorem claim_C4_bug :
    utf8DecodeStrict [0xFF] = none ∧
    get_docker_log_line [0xFF] = .error "UnicodeDecodeError" ∧
    utf8DecodeStrict [0x68, 0xC3, 0x28] = none ∧
    get_docker_log_line [0x68, 0xC3, 0x28] = .error "UnicodeDecodeError" :=
  ⟨by decide, by rfl, by decide, by rfl⟩

/-- C5 (counterexample to the claim as stated): `populate_startup_variables`
is called on line 421, outside the `try` that starts on line 436, so a
configuration-loading failure escapes `main` uncaught — the process dies
from the raw exception without the logged-error-plus-attempted-alert exit
path the claim requires. -/
theorem claim_C5_counterexample :
    mainModel (.error "could not load configuration") [] =
      (.uncaughtCrash "could not load configuration", []) ∧
    MainOutcome.uncaughtCrash "could not load configuration" ≠
      .handledExit true true ∧
    MainOutcome.uncaughtCrash "could not load configuration" ≠
      .handledExit true false := by
  refine ⟨by decide, by decide, by decide⟩

/-- C5 (amended): an error raised inside the supervision pass is caught by
`main`'s `except ValueError`, which always logs it and attempts the alert
email exactly when both `alert_program_errors` and `email_alerts` are true,
before exiting; but a configuration-loading failure (raised before the
`try`) escapes `main` uncaught, with no logging or alert attempt on its
behalf. -/
theorem claim_C5_amended (sv : StartupVars) (reg : List String) (msg : String)
    (h : (create_docker_log_threads reg sv.containers).err = some msg) :
    mainModel (.ok sv) reg =
      (.handledExit true (sv.alert_program_errors && sv.email_alerts),
       (create_docker_log_threads reg sv.containers).reg) ∧
    (∀ (e : String) (reg2 : List String),
      mainModel (.error e) reg2 = (.uncaughtCrash e, reg2)) := by
  constructor
  · simp only [mainModel, h]
  · intro e reg2
    rfl

/-- Witness for C5's amended theorem at a concrete input. -/
theorem claim_C5_witness :
    (create_docker_log_threads []
      (StartupVars.mk true true [("A", .raises "boom")]).containers).err =
        some "boom" ∧
    mainModel (.ok (StartupVars.mk true true [("A", .raises "boom")])) [] =
      (.handledExit true true,
       (create_docker_log_threads []
         (StartupVars.mk true true [("A", .raises "boom")]).containers).reg) ∧
    mainModel (.error "boom") ["t"] = (.uncaughtCrash "boom", ["t"]) := by
  have h : (create_docker_log_threads []
      (StartupVars.mk true true [("A", .raises "boom")]).containers).err =
        some "boom" := by decide
  have hmain := claim_C5_amended (StartupVars.mk true true [("A", .raises "boom")])
    [] "boom" h
  exact ⟨h, hmain.1, hmain.2 "boom" ["t"]⟩

/-- C6: if any of the four required top-level keys is absent from the read
configuration, the root-key validation of `populate_startup_variables`
(lines 244-251) produces a fatal `ValueError`, and `main` — which calls
`populate_startup_variables` before the supervision pass — then ends in an
uncaught crash with the live-thread list unchanged, i.e. before any watcher
is spawned. -/
theorem claim_C6 (keys : List String) (rest : Except String StartupVars)
    (reg : List String)
    (h : keys.contains "general" = false ∨ keys.contains "docker_container" = false ∨
      keys.contains "email" = false ∨ keys.contains "logging" = false) :
    isErrorB (populate_startup_variables keys rest) = true ∧
    isUncaughtCrashB (mainModel (populate_startup_variables keys rest) reg).1 = true ∧
    (mainModel (populate_startup_variables keys rest) reg).2 = reg := by
  cases hg : keys.contains "general" <;>
    cases hd : keys.contains "docker_container" <;>
      cases he : keys.contains "email" <;>
        cases hl : keys.contains "logging" <;>
          simp_all [populate_startup_variables, rootKeyCheck, mainModel, isErrorB,
            isUncaughtCrashB]

/-- Witness for C6 at a concrete input: a configuration missing the `email`
key. -/
theorem claim_C6_witness :
    ((["general", "docker_container", "logging"] : List String).contains "email" =
      false) ∧
    isErrorB (populate_startup_variables ["general", "docker_container", "logging"]
      (.ok (StartupVars.mk true true []))) = true ∧
    isUncaughtCrashB (mainModel (populate_startup_variables
      ["general", "docker_container", "logging"]
      (.ok (StartupVars.mk true true []))) ["t"]).1 = true ∧
    (mainModel (populate_startup_variables ["general", "docker_container", "logging"]
      (.ok (StartupVars.mk true true []))) ["t"]).2 = ["t"] := by
  have h := claim_C6 ["general", "docker_container", "logging"]
    (.ok (StartupVars.mk true true [])) ["t"]
    (Or.inr (Or.inr (Or.inl (by decide))))
  exact ⟨by decide, h.1, h.2.1, h.2.2⟩

/-- C8 (counterexample to the claim as stated): line 61 calls `.strip()`,
which removes leading as well as trailing whitespace; on the decoded line
`"  hi\n"` the code forwards `"hi"`, not the trailing-trimmed `"  hi"` the
claim requires. -/
theorem claim_C8_counterexample :
    get_docker_log_line [0x20, 0x20, 0x68, 0x69, 0x0A] = .ok [0x68, 0x69] ∧
    utf8DecodeStrict [0x20, 0x20, 0x68, 0x69, 0x0A] =
      some [0x20, 0x20, 0x68, 0x69, 0x0A] ∧
    trimTrailingSpec [0x20, 0x20, 0x68, 0x69, 0x0A] = [0x20, 0x20, 0x68, 0x69] ∧
    ([0x68, 0x69] : List Nat) ≠ [0x20, 0x20, 0x68, 0x69] :=
  ⟨by rfl, by decide, by decide, by decide⟩

/-- C8 (amended): for every line whose bytes decode, the text forwarded to
the sink is the decoded line with whitespace stripped from BOTH ends
(Python `str.strip()`), not from the trailing end only. -/
theorem claim_C8_amended (bs cs : List Nat) (h : utf8DecodeStrict bs = some cs) :
    get_docker_log_line bs = .ok (pyStrip cs) := by
  simp only [get_docker_log_line, h]

/-- Witness for C8's amended theorem at a concrete input. -/
theorem claim_C8_witness :
    utf8DecodeStrict [0x20, 0x68] = some [0x20, 0x68] ∧
    get_docker_log_line [0x20, 0x68] = .ok (pyStrip [0x20, 0x68]) := by
  have h : utf8DecodeStrict [0x20, 0x68] = some [0x20, 0x68] := by decide
  exact ⟨h, claim_C8_amended [0x20, 0x68] [0x20, 0x68] h⟩
